import Mathlib

/-!
Shallow embedding of the `url-shorty-express-part-1` URL shortener:
the identifier generator (`shells/url-shortening/utils.ts`), the
url-shortening handler with its collision-retry loop
(`shells/url-shortening/handler.ts`), the url-retrieval handler
(`shells/url-retrieval/handler.ts`), the zod validation middleware
(`ipc/payloads.ts`, `cross-shell/middleware/validate.ts`), the error
classes (`lib/errors.ts`) and the global error handler
(`cross-shell/middleware/error-handler.ts`).

The Supabase store is external; it is modelled by the interfaces the
handlers consume: an insert that either succeeds or reports a
`StoreError` with a PostgreSQL error code, and a single-row lookup.
Randomness is modelled by passing the stream of random draws
(`Math.floor(Math.random() * 36)` values) as an explicit argument.
-/

namespace BeWorkshop

/-- A store-reported error, as the handlers see it: a PostgreSQL error
code (for example "23505" for a unique-constraint violation) and a
message. -/
structure StoreError where
  code : String
  message : String
deriving DecidableEq, Repr

/-- Result of one `supabase.from("urls").insert([...])` call. -/
inductive InsertResult where
  | ok : InsertResult
  | err : StoreError → InsertResult
deriving DecidableEq, Repr

/-- A row of the `urls` table, restricted to the columns the
application writes and reads. -/
structure Record where
  long_url : String
  short_code : String
deriving DecidableEq, Repr

/-- A value thrown by a handler. `apiError` covers `ApiError` and its
subclasses from `lib/errors.ts` (message and `statusCode`);
`storeError` is a raw Supabase error object re-thrown unmodified,
which is not an `ApiError` instance. -/
inductive Thrown where
  | apiError : String → Nat → Thrown
  | storeError : StoreError → Thrown
deriving DecidableEq, Repr

/-- Body of an HTTP response produced by this application: a JSON
object with a `shortUrl` field, a JSON object with an `error` field,
or a redirect whose `Location` header is the given address. -/
inductive Body where
  | jsonShortUrl : String → Body
  | jsonError : String → Body
  | redirectTo : String → Body
deriving DecidableEq, Repr

/-- An HTTP response: status code and body. -/
structure Response where
  status : Nat
  body : Body
deriving DecidableEq, Repr

/-- Outcome of running a handler: it either sent a response or threw. -/
inductive Outcome where
  | ok : Response → Outcome
  | thrown : Thrown → Outcome
deriving DecidableEq, Repr

/-! Identifier generator (`shells/url-shortening/utils.ts`) -/

/-- The alphabet string `"abcdefghijklmnopqrstuvwxyz0123456789"` from
`generateShortId`. -/
def chars : String := "abcdefghijklmnopqrstuvwxyz0123456789"

/-- The characters of `chars` as a list. -/
def charsList : List Char := chars.toList

/-- Model of `chars.charAt(j)` for an in-range index `j`; the source only ever
calls it with `Math.floor(Math.random() * chars.length)`, which lies
in `[0, 36)`. -/
def charAt (j : Fin 36) : Char :=
  charsList.get (Fin.cast (by decide) j)

/-- The loop of `generateShortId`: `n` iterations remain, `i` is the
loop counter, `result` is the accumulator; each iteration appends
`chars.charAt(rnd i)` where `rnd i` is the `i`-th random draw. -/
def generateShortIdGo (rnd : Nat → Fin 36) : Nat → Nat → String → String
  | 0, _, result => result
  | n + 1, i, result => generateShortIdGo rnd n (i + 1) (result.push (charAt (rnd i)))

/-- Model of `generateShortId(length)`: the JS `for (let i = 0; i < length; i++)`
loop runs `max(length, 0)` times, so a non-positive `length` yields the
empty string. `rnd` supplies the random draws. -/
def generateShortId (length : Int) (rnd : Nat → Fin 36) : String :=
  generateShortIdGo rnd length.toNat 0 ""

/-- Holds iff `c` lies in the character class `[a-z0-9]`. -/
def isLowerAlnum (c : Char) : Bool :=
  ('a' ≤ c && c ≤ 'z') || ('0' ≤ c && c ≤ '9')

/-- Holds iff `s` matches the regular expression `^[a-z0-9]+$`. -/
def matchesLowerAlnumPlus (s : String) : Bool :=
  !s.toList.isEmpty && s.toList.all isLowerAlnum

/-! Url-shortening handler (`shells/url-shortening/handler.ts`) -/

/-- PostgreSQL error code for a unique-constraint violation, the code
the retry loop compares against. -/
def uniqueViolationCode : String := "23505"

/-- Retry bound `const maxRetries = 10`. -/
def maxRetries : Nat := 10

/-- The short URL string built on success:
`http://localhost:PORT/shortId`. -/
def shortUrlOf (port : Nat) (shortId : String) : String :=
  "http://localhost:" ++ toString port ++ "/" ++ shortId

/-- The `ApiError("An unexpected error occurred, please try again", 500)`
thrown when all retries are exhausted. -/
def allocationExhaustedError : Thrown :=
  .apiError "An unexpected error occurred, please try again" 500

/-- The retry loop of `urlShorteningHandler`, generic over the store:
`ins` performs one insert against store state `σ`; `gen j` is the
candidate produced by `generateShortId(8)` on loop iteration `j`
(0-based `retries`); `fuel` is `maxRetries - retries`. Returns the
outcome, the final store state, and the number of insert calls made. -/
def urlShorteningGo {σ : Type} (ins : σ → Record → InsertResult × σ)
    (gen : Nat → String) (url : String) (port : Nat) :
    Nat → Nat → σ → Outcome × σ × Nat
  | 0, _, s => (.thrown allocationExhaustedError, s, 0)
  | fuel + 1, retries, s =>
    match ins s ⟨url, gen retries⟩ with
    | (.ok, s1) =>
        (.ok ⟨201, .jsonShortUrl (shortUrlOf port (gen retries))⟩, s1, 1)
    | (.err e, s1) =>
        if e.code = uniqueViolationCode then
          match urlShorteningGo ins gen url port fuel (retries + 1) s1 with
          | (o, s2, n) => (o, s2, n + 1)
        else
          (.thrown (.storeError e), s1, 1)

/-- Model of `urlShorteningHandler`: run the retry loop from `retries = 0`. -/
def urlShorteningHandler {σ : Type} (ins : σ → Record → InsertResult × σ)
    (gen : Nat → String) (url : String) (port : Nat) (s : σ) :
    Outcome × σ × Nat :=
  urlShorteningGo ins gen url port maxRetries 0 s

/-- A store double whose state is the number of inserts performed so
far and whose `j`-th insert call reports `f j`, regardless of the
record inserted. -/
def seqStore (f : Nat → InsertResult) : Nat → Record → InsertResult × Nat :=
  fun s _ => (f s, s + 1)

/-- Holds iff some record of `s` already holds `code` as its
`short_code`. -/
def hasCode (s : List Record) (code : String) : Bool :=
  s.any fun r => r.short_code == code

/-- The uniqueness-violation error a store with a unique constraint on
`short_code` reports on a duplicate insert. -/
def duplicateKeyError : StoreError :=
  ⟨"23505", "duplicate key value violates unique constraint"⟩

/-- Store double backed by a list of records with a unique constraint
on `short_code`: the insert fails with code "23505" exactly when the
candidate `short_code` already exists, and otherwise appends the
record. -/
def insertUnique (s : List Record) (r : Record) : InsertResult × List Record :=
  if hasCode s r.short_code then (.err duplicateKeyError, s)
  else (.ok, s ++ [r])

/-! Url-retrieval handler (`shells/url-retrieval/handler.ts`) -/

/-- What the lookup
`supabase.from("urls").select("long_url").eq("short_code", x).single()`
hands to the handler: the `long_url` of a single row, no data (including
the `.single()` error when the row count is not one), or a
store-reported failure. -/
inductive LookupReply where
  | data : String → LookupReply
  | noData : LookupReply
  | storeFailure : StoreError → LookupReply
deriving DecidableEq, Repr

/-- Answer of the healthy store to the single-row lookup: exactly one
record matching `code` yields its `long_url`, otherwise no data. -/
def lookupSingle (s : List Record) (code : String) : LookupReply :=
  match s.filter (fun r => r.short_code == code) with
  | [r] => .data r.long_url
  | _ => .noData

/-- Model of `new NotFoundError(message)`: an `ApiError` with status 404. -/
def notFoundError (message : String) : Thrown := .apiError message 404

/-- Model of `urlRetrievalHandler`: on `error || !data` throw
`NotFoundError("Short URL not found")`, otherwise issue
`res.redirect(301, data.long_url)`. -/
def urlRetrievalHandler (reply : LookupReply) : Outcome :=
  match reply with
  | .data longUrl => .ok ⟨301, .redirectTo longUrl⟩
  | .noData => .thrown (notFoundError "Short URL not found")
  | .storeFailure _ => .thrown (notFoundError "Short URL not found")

/-- The retrieval path against the list-backed store. -/
def urlRetrievalOn (s : List Record) (code : String) : Outcome :=
  urlRetrievalHandler (lookupSingle s code)

/-! Error handler (`cross-shell/middleware/error-handler.ts`) -/

/-- Model of `errorHandler`: an `ApiError` instance is answered with its own
`statusCode` and message; any other thrown value (such as a re-thrown
Supabase error object) is answered with 500 and the message
"Internal Server Error". -/
def errorHandler (err : Thrown) : Response :=
  match err with
  | .apiError message statusCode => ⟨statusCode, .jsonError message⟩
  | .storeError _ => ⟨500, .jsonError "Internal Server Error"⟩

/-- The `express-async-errors` wiring: a handler response passes
through; a thrown value is routed to `errorHandler`. -/
def expressRun (o : Outcome) : Response :=
  match o with
  | .ok r => r
  | .thrown t => errorHandler t

/-! Validation (`ipc/payloads.ts`, `cross-shell/middleware/validate.ts`) -/

/-- The JSON value found at `body.url`, reduced to what the zod schema
distinguishes: a string, or a non-string value tagged with the type
name zod reports for it. -/
inductive JsonValue where
  | str : String → JsonValue
  | other : String → JsonValue
deriving DecidableEq, Repr

/-- Default zod issue message for a missing required field. -/
def requiredMessage : String := "Required"

/-- Default zod issue message for `.max(2048)` on a string. -/
def maxLengthMessage : String := "String must contain at most 2048 character(s)"

/-- The custom message configured on `.url()` in `shortUrlSchema`. -/
def wrongUrlMessage : String := "Wrong url format"

/-- The issues `shortUrlSchema` reports for `body.url`. The schema wraps
`url: z.string().url(...).max(2048)` inside nested zod objects:
a missing field yields "Required"; a non-string yields the zod type
mismatch message; for a string, the `.url()` check (with custom
message "Wrong url format") and the `.max(2048)` check (with the
default zod message) each contribute an issue when they fail. `isValidUrl`
stands for the host `new URL(...)` syntax check that the zod `.url()`
delegates to. -/
def shortUrlSchemaIssues (isValidUrl : String → Bool) (url : Option JsonValue) :
    List String :=
  match url with
  | none => [requiredMessage]
  | some (.other received) => ["Expected string, received " ++ received]
  | some (.str s) =>
      (if isValidUrl s then [] else [wrongUrlMessage]) ++
      (if s.length ≤ 2048 then [] else [maxLengthMessage])

/-- The `validate(shortUrlSchema)` middleware: on schema failure it
throws `BadRequestError` (an `ApiError` with status 400) carrying the
issue messages joined by ", "; on success it calls `next()`
(modelled as `none`). -/
def validate (isValidUrl : String → Bool) (url : Option JsonValue) :
    Option Thrown :=
  match shortUrlSchemaIssues isValidUrl url with
  | [] => none
  | issues => some (.apiError (String.intercalate ", " issues) 400)

/-- The raw value the handler would read from `req.body.url`; after
validation passes it is always a string. -/
def bodyUrlString : Option JsonValue → String
  | some (.str s) => s
  | _ => ""

/-- Route `POST /api/url` as wired in `index.ts`:
`validate(shortUrlSchema)` runs first; only if it calls `next()` does
`urlShorteningHandler` run. When validation throws, the store is
untouched and no insert call is made. -/
def postApiUrl {σ : Type} (isValidUrl : String → Bool)
    (ins : σ → Record → InsertResult × σ) (gen : Nat → String)
    (port : Nat) (s : σ) (body : Option JsonValue) : Outcome × σ × Nat :=
  match validate isValidUrl body with
  | some t => (.thrown t, s, 0)
  | none => urlShorteningHandler ins gen (bodyUrlString body) port s

/-- The insert result is an error whose code is the
unique-constraint-violation code "23505". -/
def reportsUniqueViolation (r : InsertResult) : Prop :=
  ∃ e, r = .err e ∧ e.code = uniqueViolationCode

/-! Behaviour of the retry loop over the sequential store double -/

theorem go_seq_success (f : Nat → InsertResult) (gen : Nat → String)
    (url : String) (port : Nat) :
    ∀ (k fuel r s : Nat), k < fuel →
    (∀ j, j < k → reportsUniqueViolation (f (s + j))) →
    f (s + k) = .ok →
    urlShorteningGo (seqStore f) gen url port fuel r s =
      (.ok ⟨201, .jsonShortUrl (shortUrlOf port (gen (r + k)))⟩, s + k + 1, k + 1) := by
  intro k
  induction k with
  | zero =>
    intro fuel r s hk hdup hok
    cases fuel with
    | zero => exact absurd hk (Nat.not_lt_zero _)
    | succ fuel =>
      simp only [Nat.add_zero] at hok
      simp [urlShorteningGo, seqStore, hok]
  | succ k ih =>
    intro fuel r s hk hdup hok
    cases fuel with
    | zero => exact absurd hk (Nat.not_lt_zero _)
    | succ fuel =>
      obtain ⟨e, he, hcode⟩ := hdup 0 (Nat.succ_pos k)
      simp only [Nat.add_zero] at he
      have hrec := ih fuel (r + 1) (s + 1) (Nat.lt_of_succ_lt_succ hk)
        (fun j hj => by
          have h := hdup (j + 1) (Nat.succ_lt_succ hj)
          have e3 : s + (j + 1) = s + 1 + j := by omega
          rwa [e3] at h)
        (by
          have e4 : s + (k + 1) = s + 1 + k := by omega
          rwa [e4] at hok)
      have e1 : r + 1 + k = r + (k + 1) := by omega
      have e2 : s + 1 + k + 1 = s + (k + 1) + 1 := by omega
      rw [e1, e2] at hrec
      simp [urlShorteningGo, seqStore, he, hcode, hrec]

theorem go_seq_exhaust (f : Nat → InsertResult) (gen : Nat → String)
    (url : String) (port : Nat) :
    ∀ (fuel r s : Nat),
    (∀ j, j < fuel → reportsUniqueViolation (f (s + j))) →
    urlShorteningGo (seqStore f) gen url port fuel r s =
      (.thrown allocationExhaustedError, s + fuel, fuel) := by
  intro fuel
  induction fuel with
  | zero => intro r s _; simp [urlShorteningGo]
  | succ fuel ih =>
    intro r s hdup
    obtain ⟨e, he, hcode⟩ := hdup 0 (Nat.succ_pos fuel)
    simp only [Nat.add_zero] at he
    have hrec := ih (r + 1) (s + 1)
      (fun j hj => by
        have h := hdup (j + 1) (Nat.succ_lt_succ hj)
        have e3 : s + (j + 1) = s + 1 + j := by omega
        rwa [e3] at h)
    have e2 : s + 1 + fuel = s + (fuel + 1) := by omega
    rw [e2] at hrec
    simp [urlShorteningGo, seqStore, he, hcode, hrec]

theorem go_seq_abort (f : Nat → InsertResult) (gen : Nat → String)
    (url : String) (port : Nat) (e : StoreError) :
    ∀ (m fuel r s : Nat), m < fuel →
    (∀ j, j < m → reportsUniqueViolation (f (s + j))) →
    f (s + m) = .err e → e.code ≠ uniqueViolationCode →
    urlShorteningGo (seqStore f) gen url port fuel r s =
      (.thrown (.storeError e), s + m + 1, m + 1) := by
  intro m
  induction m with
  | zero =>
    intro fuel r s hm hdup herr hcode
    cases fuel with
    | zero => exact absurd hm (Nat.not_lt_zero _)
    | succ fuel =>
      simp only [Nat.add_zero] at herr
      simp [urlShorteningGo, seqStore, herr, hcode]
  | succ m ih =>
    intro fuel r s hm hdup herr hcode
    cases fuel with
    | zero => exact absurd hm (Nat.not_lt_zero _)
    | succ fuel =>
      obtain ⟨e0, he0, hcode0⟩ := hdup 0 (Nat.succ_pos m)
      simp only [Nat.add_zero] at he0
      have hrec := ih fuel (r + 1) (s + 1) (Nat.lt_of_succ_lt_succ hm)
        (fun j hj => by
          have h := hdup (j + 1) (Nat.succ_lt_succ hj)
          have e3 : s + (j + 1) = s + 1 + j := by omega
          rwa [e3] at h)
        (by
          have e4 : s + (m + 1) = s + 1 + m := by omega
          rwa [e4] at herr)
        hcode
      have e2 : s + 1 + m + 1 = s + (m + 1) + 1 := by omega
      rw [e2] at hrec
      simp [urlShorteningGo, seqStore, he0, hcode0, hrec]

/-- C1: for every `k` with `0 ≤ k < 10`, if the store reports a
uniqueness-constraint violation (code "23505") on each of the first
`k` insert attempts and success on attempt `k + 1`, the url-shortening
handler responds 201 with a `shortUrl` containing the candidate code
generated on attempt `k + 1`, having made exactly `k + 1` insert
calls. -/
theorem collision_retry_succeeds (k : Nat) (f : Nat → InsertResult)
    (gen : Nat → String) (url : String) (port : Nat)
    (hk : k < 10)
    (hdup : ∀ j, j < k → reportsUniqueViolation (f j))
    (hok : f k = .ok) :
    urlShorteningHandler (seqStore f) gen url port 0 =
      (.ok ⟨201, .jsonShortUrl (shortUrlOf port (gen k))⟩, k + 1, k + 1) ∧
    shortUrlOf port (gen k) =
      "http://localhost:" ++ toString port ++ "/" ++ gen k := by
  constructor
  · have h := go_seq_success f gen url port k maxRetries 0 0 hk
      (fun j hj => by simpa using hdup j hj) (by simpa using hok)
    simpa [urlShorteningHandler] using h
  · rfl

/-- Witness for C1 at `k = 2`: two collisions then success yields 201
with the third candidate after exactly three insert calls. -/
theorem collision_retry_succeeds_witness :
    urlShorteningHandler
        (seqStore (fun j => if j < 2 then .err duplicateKeyError else .ok))
        (fun _ => "abcd1234") "https://www.example.com" 3000 0 =
      (.ok ⟨201, .jsonShortUrl (shortUrlOf 3000 "abcd1234")⟩, 3, 3) ∧
    shortUrlOf 3000 "abcd1234" =
      "http://localhost:" ++ toString 3000 ++ "/" ++ "abcd1234" :=
  collision_retry_succeeds 2 _ _ _ _ (by decide)
    (fun j hj => ⟨duplicateKeyError, by simp [hj], rfl⟩) rfl

/-- C2: if every insert attempt reports a uniqueness-constraint
violation, the handler makes exactly 10 insert attempts and throws
`ApiError("An unexpected error occurred, please try again", 500)`,
which the error handler turns into a 500 response with that message. -/
theorem exhaustion_after_ten_attempts (f : Nat → InsertResult)
    (gen : Nat → String) (url : String) (port : Nat)
    (hdup : ∀ j, j < 10 → reportsUniqueViolation (f j)) :
    urlShorteningHandler (seqStore f) gen url port 0 =
      (.thrown allocationExhaustedError, 10, 10) ∧
    allocationExhaustedError =
      .apiError "An unexpected error occurred, please try again" 500 ∧
    expressRun (.thrown allocationExhaustedError) =
      ⟨500, .jsonError "An unexpected error occurred, please try again"⟩ := by
  refine ⟨?_, rfl, rfl⟩
  have h := go_seq_exhaust f gen url port maxRetries 0 0
    (fun j hj => by simpa using hdup j hj)
  simpa [urlShorteningHandler] using h

/-- Witness for C2: a store double that always reports "23505". -/
theorem exhaustion_after_ten_attempts_witness :
    urlShorteningHandler (seqStore (fun _ => .err duplicateKeyError))
        (fun _ => "abcd1234") "https://www.example.com" 3000 0 =
      (.thrown allocationExhaustedError, 10, 10) ∧
    allocationExhaustedError =
      .apiError "An unexpected error occurred, please try again" 500 ∧
    expressRun (.thrown allocationExhaustedError) =
      ⟨500, .jsonError "An unexpected error occurred, please try again"⟩ :=
  exhaustion_after_ten_attempts _ _ _ _
    (fun _ _ => ⟨duplicateKeyError, rfl, rfl⟩)

/-- C3: if the insert attempt at 0-based position `m` fails with a
store error whose code is not "23505" (all earlier attempts being
collisions), the handler throws that store error unmodified and makes
no further insert attempts: exactly `m + 1` insert calls happen. -/
theorem noncollision_error_aborts (m : Nat) (f : Nat → InsertResult)
    (gen : Nat → String) (url : String) (port : Nat) (e : StoreError)
    (hm : m < 10)
    (hdup : ∀ j, j < m → reportsUniqueViolation (f j))
    (herr : f m = .err e)
    (hcode : e.code ≠ uniqueViolationCode) :
    urlShorteningHandler (seqStore f) gen url port 0 =
      (.thrown (.storeError e), m + 1, m + 1) := by
  have h := go_seq_abort f gen url port e m maxRetries 0 0 hm
    (fun j hj => by simpa using hdup j hj) (by simpa using herr) hcode
  simpa [urlShorteningHandler] using h

/-- Witness for C3 at `m = 1`: one collision, then a connectivity
error; the handler throws it after exactly two insert calls. -/
theorem noncollision_error_aborts_witness :
    urlShorteningHandler
        (seqStore (fun j =>
          if j < 1 then .err duplicateKeyError
          else .err ⟨"08006", "connection failure"⟩))
        (fun _ => "abcd1234") "https://www.example.com" 3000 0 =
      (.thrown (.storeError ⟨"08006", "connection failure"⟩), 2, 2) :=
  noncollision_error_aborts 1 _ _ _ _ _ (by decide)
    (fun j hj => ⟨duplicateKeyError, by simp [hj], rfl⟩) rfl (by decide)

/-! Behaviour of the retry loop over the list-backed store -/

theorem hasCode_eq_false_iff (s : List Record) (code : String) :
    hasCode s code = false ↔ ∀ r ∈ s, r.short_code ≠ code := by
  simp [hasCode]

theorem go_unique_success (gen : Nat → String) (url : String) (port : Nat) :
    ∀ (fuel r : Nat) (s s1 : List Record) (resp : Response) (n : Nat),
    urlShorteningGo insertUnique gen url port fuel r s = (.ok resp, s1, n) →
    ∃ k, k < fuel ∧ hasCode s (gen (r + k)) = false ∧
      resp = ⟨201, .jsonShortUrl (shortUrlOf port (gen (r + k)))⟩ ∧
      s1 = s ++ [⟨url, gen (r + k)⟩] ∧ n = k + 1 := by
  intro fuel
  induction fuel with
  | zero =>
    intro r s s1 resp n h
    simp [urlShorteningGo] at h
  | succ fuel ih =>
    intro r s s1 resp n h
    by_cases hc : hasCode s (gen r)
    · rcases hgo : urlShorteningGo insertUnique gen url port fuel (r + 1) s
        with ⟨o, s2, n0⟩
      simp [urlShorteningGo, insertUnique, hc, uniqueViolationCode,
        duplicateKeyError, hgo] at h
      obtain ⟨ho, hs2, hn⟩ := h
      obtain ⟨k, hk, hfresh, hresp, hs1, hn0⟩ :=
        ih (r + 1) s s1 resp n0 (by rw [hgo, ho, hs2])
      refine ⟨k + 1, by omega, ?_, ?_, ?_, by omega⟩
      · have e1 : r + (k + 1) = r + 1 + k := by omega
        rwa [e1]
      · have e1 : r + (k + 1) = r + 1 + k := by omega
        rwa [e1]
      · have e1 : r + (k + 1) = r + 1 + k := by omega
        rwa [e1]
    · simp only [Bool.not_eq_true] at hc
      simp [urlShorteningGo, insertUnique, hc] at h
      obtain ⟨hresp, hs1, hn⟩ := h
      exact ⟨0, Nat.succ_pos fuel, by simpa using hc, by simp [hresp.symm],
        by simp [hs1.symm], by omega⟩

/-- C5: every record successfully allocated by the url-shortening
handler (run against the store with a unique constraint on
`short_code`) is resolved by a subsequent lookup of its `short_code`
to exactly the stored `long_url`, and the HTTP response is a 301
redirect whose Location is that URL. -/
theorem allocate_then_resolve (gen : Nat → String) (url : String) (port : Nat)
    (s s1 : List Record) (resp : Response) (n : Nat)
    (h : urlShorteningHandler insertUnique gen url port s = (.ok resp, s1, n)) :
    ∃ code,
      resp = ⟨201, .jsonShortUrl (shortUrlOf port code)⟩ ∧
      Record.mk url code ∈ s1 ∧
      urlRetrievalOn s1 code = .ok ⟨301, .redirectTo url⟩ ∧
      expressRun (urlRetrievalOn s1 code) = ⟨301, .redirectTo url⟩ := by
  obtain ⟨k, hk, hfresh, hresp, hs1, hn⟩ :=
    go_unique_success gen url port maxRetries 0 s s1 resp n h
  simp only [Nat.zero_add] at hfresh hresp hs1
  refine ⟨gen k, hresp, by simp [hs1], ?_⟩
  have hfilter : s.filter (fun r => r.short_code == gen k) = [] := by
    rw [List.filter_eq_nil_iff]
    intro r hr
    have := (hasCode_eq_false_iff s (gen k)).1 hfresh r hr
    simpa using this
  have hlook : lookupSingle s1 (gen k) = .data url := by
    rw [hs1]
    simp [lookupSingle, List.filter_append, hfilter]
  constructor
  · simp [urlRetrievalOn, hlook, urlRetrievalHandler]
  · simp [urlRetrievalOn, hlook, urlRetrievalHandler, expressRun]

/-- Witness for C5: allocating into the empty store with a constant
generator succeeds and the allocated code resolves back to the URL. -/
theorem allocate_then_resolve_witness :
    ∃ code,
      (⟨201, .jsonShortUrl (shortUrlOf 3000 "abcd1234")⟩ : Response) =
        ⟨201, .jsonShortUrl (shortUrlOf 3000 code)⟩ ∧
      Record.mk "https://www.example.com" code ∈
        [Record.mk "https://www.example.com" "abcd1234"] ∧
      urlRetrievalOn [Record.mk "https://www.example.com" "abcd1234"] code =
        .ok ⟨301, .redirectTo "https://www.example.com"⟩ ∧
      expressRun
          (urlRetrievalOn [Record.mk "https://www.example.com" "abcd1234"] code) =
        ⟨301, .redirectTo "https://www.example.com"⟩ :=
  allocate_then_resolve (fun _ => "abcd1234") "https://www.example.com" 3000
    [] [Record.mk "https://www.example.com" "abcd1234"]
    ⟨201, .jsonShortUrl (shortUrlOf 3000 "abcd1234")⟩ 1 rfl

/-- C6: starting from a store whose codes are pairwise distinct, two
successful allocations (the same long URL submitted twice) produce two
records with different `short_code` values, the stored codes remain
pairwise distinct, and any two distinct records in the final store
have different codes; no deduplication of `long_url` occurs. -/
theorem allocated_codes_distinct (gen1 gen2 : Nat → String) (url : String)
    (port : Nat) (s s1 s2 : List Record) (resp1 resp2 : Response) (n1 n2 : Nat)
    (hnd : (s.map Record.short_code).Nodup)
    (h1 : urlShorteningHandler insertUnique gen1 url port s = (.ok resp1, s1, n1))
    (h2 : urlShorteningHandler insertUnique gen2 url port s1 = (.ok resp2, s2, n2)) :
    ∃ c1 c2,
      c1 ≠ c2 ∧
      s2 = s ++ [Record.mk url c1, Record.mk url c2] ∧
      (s2.map Record.short_code).Nodup ∧
      ∀ a ∈ s2, ∀ b ∈ s2, a ≠ b → a.short_code ≠ b.short_code := by
  obtain ⟨k1, hk1, hfresh1, hresp1, hs1, hn1eq⟩ :=
    go_unique_success gen1 url port maxRetries 0 s s1 resp1 n1 h1
  obtain ⟨k2, hk2, hfresh2, hresp2, hs2, hn2eq⟩ :=
    go_unique_success gen2 url port maxRetries 0 s1 s2 resp2 n2 h2
  set c1 := gen1 (0 + k1) with hc1
  set c2 := gen2 (0 + k2) with hc2
  have hfresh1p := (hasCode_eq_false_iff s c1).1 hfresh1
  have hfresh2p := (hasCode_eq_false_iff s1 c2).1 hfresh2
  have hne : c1 ≠ c2 := by
    intro hcc
    have hmem : Record.mk url c1 ∈ s1 := by simp [hs1]
    exact hfresh2p _ hmem (by simpa using hcc)
  have hs2s : s2 = s ++ [Record.mk url c1, Record.mk url c2] := by
    rw [hs2, hs1, List.append_assoc]
    rfl
  have hc2s : ∀ r ∈ s, r.short_code ≠ c2 := by
    intro r hr
    exact hfresh2p r (by simp [hs1, hr])
  have hndnew : (s2.map Record.short_code).Nodup := by
    rw [hs2s, List.map_append]
    rw [List.nodup_append]
    refine ⟨hnd, by simp [hne], ?_⟩
    intro a ha
    simp only [List.mem_map] at ha
    obtain ⟨r, hr, hra⟩ := ha
    simp only [List.map_cons, List.map_nil, List.mem_cons, List.not_mem_nil,
      or_false]
    rintro (h | h)
    · exact hfresh1p r hr (hra.trans h)
    · exact hc2s r hr (hra.trans h)
  refine ⟨c1, c2, hne, hs2s, hndnew, ?_⟩
  intro a ha b hb hab hcode
  exact hab (List.inj_on_of_nodup_map hndnew ha hb hcode)

/-- Witness for C6: two successful allocations of the same URL into
the empty store with constant generators. -/
theorem allocated_codes_distinct_witness :
    ∃ c1 c2,
      c1 ≠ c2 ∧
      ([Record.mk "https://www.example.com" "aaaaaaaa",
        Record.mk "https://www.example.com" "bbbbbbbb"] : List Record) =
        [] ++ [Record.mk "https://www.example.com" c1,
               Record.mk "https://www.example.com" c2] ∧
      (([Record.mk "https://www.example.com" "aaaaaaaa",
         Record.mk "https://www.example.com" "bbbbbbbb"] : List Record).map
           Record.short_code).Nodup ∧
      ∀ a ∈ ([Record.mk "https://www.example.com" "aaaaaaaa",
              Record.mk "https://www.example.com" "bbbbbbbb"] : List Record),
        ∀ b ∈ ([Record.mk "https://www.example.com" "aaaaaaaa",
                Record.mk "https://www.example.com" "bbbbbbbb"] : List Record),
          a ≠ b → a.short_code ≠ b.short_code :=
  allocated_codes_distinct (fun _ => "aaaaaaaa") (fun _ => "bbbbbbbb")
    "https://www.example.com" 3000 []
    [Record.mk "https://www.example.com" "aaaaaaaa"]
    [Record.mk "https://www.example.com" "aaaaaaaa",
     Record.mk "https://www.example.com" "bbbbbbbb"]
    ⟨201, .jsonShortUrl (shortUrlOf 3000 "aaaaaaaa")⟩
    ⟨201, .jsonShortUrl (shortUrlOf 3000 "bbbbbbbb")⟩ 1 1
    (by simp) rfl rfl

/-! Behaviour of the identifier generator -/

theorem charAt_mem (j : Fin 36) : charAt j ∈ charsList :=
  charsList.get_mem _ _

theorem charsList_all_lowerAlnum : charsList.all isLowerAlnum = true := by decide

theorem generateShortIdGo_length (rnd : Nat → Fin 36) :
    ∀ (n i : Nat) (acc : String),
    (generateShortIdGo rnd n i acc).length = acc.length + n := by
  intro n
  induction n with
  | zero => intro i acc; rfl
  | succ n ih =>
    intro i acc
    rw [generateShortIdGo, ih]
    simp [String.length_push]
    omega

theorem generateShortIdGo_mem (rnd : Nat → Fin 36) :
    ∀ (n i : Nat) (acc : String) (c : Char),
    c ∈ (generateShortIdGo rnd n i acc).toList → c ∈ acc.toList ∨ c ∈ charsList := by
  intro n
  induction n with
  | zero => intro i acc c h; exact Or.inl h
  | succ n ih =>
    intro i acc c h
    rw [generateShortIdGo] at h
    rcases ih (i + 1) _ c h with h1 | h1
    · have hpush : (acc.push (charAt (rnd i))).toList =
        acc.toList ++ [charAt (rnd i)] := rfl
      rw [hpush] at h1
      rcases List.mem_append.1 h1 with h2 | h2
      · exact Or.inl h2
      · right
        have hc : c = charAt (rnd i) := by simpa using h2
        rw [hc]
        exact charAt_mem (rnd i)
    · exact Or.inr h1

theorem generateShortId_length (L : Int) (rnd : Nat → Fin 36) :
    (generateShortId L rnd).length = L.toNat := by
  unfold generateShortId
  rw [generateShortIdGo_length]
  simp

theorem generateShortId_mem (L : Int) (rnd : Nat → Fin 36) :
    ∀ c ∈ (generateShortId L rnd).toList, c ∈ charsList := by
  intro c hc
  rcases generateShortIdGo_mem rnd L.toNat 0 "" c hc with h | h
  · simp at h
  · exact h

theorem generateShortId_format (L : Int) (rnd : Nat → Fin 36) (hL : 1 ≤ L) :
    matchesLowerAlnumPlus (generateShortId L rnd) = true := by
  unfold matchesLowerAlnumPlus
  have hlen : (generateShortId L rnd).toList.length = L.toNat := by
    rw [show (generateShortId L rnd).toList.length =
      (generateShortId L rnd).length from rfl]
    exact generateShortId_length L rnd
  have hne : (generateShortId L rnd).toList.isEmpty = false := by
    rcases he : (generateShortId L rnd).toList with _ | ⟨a, as⟩
    · rw [he] at hlen
      simp at hlen
      omega
    · rfl
  have hall : (generateShortId L rnd).toList.all isLowerAlnum = true := by
    rw [List.all_eq_true]
    intro c hc
    exact (List.all_eq_true.1 charsList_all_lowerAlnum) c
      (generateShortId_mem L rnd c hc)
  rw [hne, hall]
  rfl

/-- C7: `generateShortId(L)` for `L ≥ 1` returns a string of length
`L` whose every character belongs to the 36-symbol alphabet
`[a-z0-9]`; and every short_code allocated by the url-shortening
handler is the result of `generateShortId(8)`, so it has length
exactly 8 (hence ≥ 8) and matches `^[a-z0-9]+$`. -/
theorem short_code_format :
    (∀ (L : Int) (rnd1 : Nat → Fin 36), 1 ≤ L →
      ((generateShortId L rnd1).length : Int) = L ∧
      matchesLowerAlnumPlus (generateShortId L rnd1) = true ∧
      ∀ c ∈ (generateShortId L rnd1).toList, c ∈ charsList) ∧
    (∀ (rnd : Nat → Nat → Fin 36) (url : String) (port : Nat)
        (s s1 : List Record) (resp : Response) (n : Nat),
      urlShorteningHandler insertUnique
          (fun j => generateShortId 8 (rnd j)) url port s = (.ok resp, s1, n) →
      ∃ row : Record, s1 = s ++ [row] ∧
        row.short_code.length = 8 ∧ 8 ≤ row.short_code.length ∧
        matchesLowerAlnumPlus row.short_code = true) := by
  constructor
  · intro L rnd1 hL
    refine ⟨?_, generateShortId_format L rnd1 hL, generateShortId_mem L rnd1⟩
    rw [generateShortId_length]
    omega
  · intro rnd url port s s1 resp n h
    obtain ⟨k, hk, hfresh, hresp, hs1, hn⟩ :=
      go_unique_success (fun j => generateShortId 8 (rnd j)) url port
        maxRetries 0 s s1 resp n h
    refine ⟨⟨url, generateShortId 8 (rnd (0 + k))⟩, hs1, ?_, ?_, ?_⟩
    · exact generateShortId_length 8 (rnd (0 + k))
    · rw [generateShortId_length 8 (rnd (0 + k))]
      decide
    · exact generateShortId_format 8 (rnd (0 + k)) (by omega)

/-- Witness for C7: the constant draw 0 yields the code "aaaaaaaa",
of length 8 and matching the format, and an allocation into the empty
store stores exactly such a record. -/
theorem short_code_format_witness :
    (((generateShortId 8 (fun _ => (0 : Fin 36))).length : Int) = 8 ∧
     matchesLowerAlnumPlus (generateShortId 8 (fun _ => (0 : Fin 36))) = true ∧
     ∀ c ∈ (generateShortId 8 (fun _ => (0 : Fin 36))).toList, c ∈ charsList) ∧
    ∃ row : Record,
      ([Record.mk "https://www.example.com" "aaaaaaaa"] : List Record) =
        [] ++ [row] ∧
      row.short_code.length = 8 ∧ 8 ≤ row.short_code.length ∧
      matchesLowerAlnumPlus row.short_code = true :=
  ⟨short_code_format.1 8 (fun _ => (0 : Fin 36)) (by decide),
   short_code_format.2 (fun _ _ => (0 : Fin 36)) "https://www.example.com" 3000
     [] [Record.mk "https://www.example.com" "aaaaaaaa"]
     ⟨201, .jsonShortUrl (shortUrlOf 3000 "aaaaaaaa")⟩ 1 rfl⟩

/-- C10: `generateShortId` is total over all integer inputs: the
result has length `max(n, 0)`, and for every `n ≤ 0` it is the empty
string; no guard inside the function enforces the system minimum
length of 8. -/
theorem generateShortId_total (n : Int) (rnd : Nat → Fin 36) :
    ((generateShortId n rnd).length : Int) = max n 0 ∧
    (n ≤ 0 → generateShortId n rnd = "") := by
  constructor
  · rw [generateShortId_length]
    omega
  · intro hn
    have h0 : n.toNat = 0 := by omega
    unfold generateShortId
    rw [h0]
    rfl

/-- Witness for C10 at `n = -1`: the result is empty. -/
theorem generateShortId_total_witness :
    ((generateShortId (-1) (fun _ => (0 : Fin 36))).length : Int) = max (-1) 0 ∧
    generateShortId (-1) (fun _ => (0 : Fin 36)) = "" :=
  ⟨(generateShortId_total (-1) (fun _ => (0 : Fin 36))).1,
   (generateShortId_total (-1) (fun _ => (0 : Fin 36))).2 (by decide)⟩

/-- C8: when no record matches the requested short code, and likewise
when the store reports a lookup failure, the url-retrieval handler
throws `NotFoundError("Short URL not found")`, which yields a 404
response with that message; the two cases are not distinguished. -/
theorem retrieval_not_found (s : List Record) (code : String) (e : StoreError)
    (hnone : ∀ r ∈ s, r.short_code ≠ code) :
    lookupSingle s code = .noData ∧
    urlRetrievalOn s code = .thrown (notFoundError "Short URL not found") ∧
    urlRetrievalHandler (.storeFailure e) =
      .thrown (notFoundError "Short URL not found") ∧
    urlRetrievalHandler (.storeFailure e) = urlRetrievalHandler .noData ∧
    expressRun (.thrown (notFoundError "Short URL not found")) =
      ⟨404, .jsonError "Short URL not found"⟩ := by
  have hfilter : s.filter (fun r => r.short_code == code) = [] := by
    rw [List.filter_eq_nil_iff]
    intro r hr
    simpa using hnone r hr
  have hl : lookupSingle s code = .noData := by
    simp [lookupSingle, hfilter]
  exact ⟨hl, by simp [urlRetrievalOn, hl, urlRetrievalHandler], rfl, rfl, rfl⟩

/-- Witness for C8: a store holding one record, queried for an absent
code, and a lookup failure with a connectivity error. -/
theorem retrieval_not_found_witness :
    lookupSingle [Record.mk "https://www.example.com" "abcd1234"] "zzzzzzzz" =
      .noData ∧
    urlRetrievalOn [Record.mk "https://www.example.com" "abcd1234"] "zzzzzzzz" =
      .thrown (notFoundError "Short URL not found") ∧
    urlRetrievalHandler (.storeFailure ⟨"08006", "connection failure"⟩) =
      .thrown (notFoundError "Short URL not found") ∧
    urlRetrievalHandler (.storeFailure ⟨"08006", "connection failure"⟩) =
      urlRetrievalHandler .noData ∧
    expressRun (.thrown (notFoundError "Short URL not found")) =
      ⟨404, .jsonError "Short URL not found"⟩ :=
  retrieval_not_found [Record.mk "https://www.example.com" "abcd1234"]
    "zzzzzzzz" ⟨"08006", "connection failure"⟩ (by decide)

theorem validate_of_issues_ne_nil (isValidUrl : String → Bool)
    (body : Option JsonValue)
    (h : shortUrlSchemaIssues isValidUrl body ≠ []) :
    validate isValidUrl body =
      some (.apiError
        (String.intercalate ", " (shortUrlSchemaIssues isValidUrl body)) 400) := by
  unfold validate
  rcases hi : shortUrlSchemaIssues isValidUrl body with _ | ⟨a, as⟩
  · exact absurd hi h
  · rfl

/-- C4 (amended): every request body violating the validation
contract is rejected with status 400 and the url-shortening handler is
never invoked (the store is untouched and zero insert calls happen);
the response message is the joined zod issue list, which equals
"Wrong url format" precisely when the `url` value is a string that
fails the URL-syntax check while within the length bound; a missing
`url` yields the zod message "Required" and an over-length valid URL
yields the zod max-length message instead. -/
theorem validation_rejects (isValidUrl : String → Bool) {σ : Type}
    (ins : σ → Record → InsertResult × σ) (gen : Nat → String) (port : Nat)
    (s : σ) (body : Option JsonValue)
    (hviol : body = none ∨ (∃ t, body = some (.other t)) ∨
      (∃ u, body = some (.str u) ∧ (isValidUrl u = false ∨ 2048 < u.length))) :
    ∃ m, validate isValidUrl body = some (.apiError m 400) ∧
      postApiUrl isValidUrl ins gen port s body =
        (.thrown (.apiError m 400), s, 0) ∧
      expressRun (.thrown (.apiError m 400)) = ⟨400, .jsonError m⟩ ∧
      (body = none → m = requiredMessage) ∧
      (∀ u, body = some (.str u) → isValidUrl u = false → u.length ≤ 2048 →
        m = wrongUrlMessage) ∧
      (∀ u, body = some (.str u) → isValidUrl u = true → 2048 < u.length →
        m = maxLengthMessage) := by
  have hne : shortUrlSchemaIssues isValidUrl body ≠ [] := by
    rcases hviol with rfl | ⟨t, rfl⟩ | ⟨u, rfl, hu⟩
    · simp [shortUrlSchemaIssues]
    · simp [shortUrlSchemaIssues]
    · rcases hu with hu | hu
      · simp [shortUrlSchemaIssues, hu]
      · have hlen : ¬ u.length ≤ 2048 := by omega
        simp [shortUrlSchemaIssues, hlen]
  refine ⟨String.intercalate ", " (shortUrlSchemaIssues isValidUrl body),
    validate_of_issues_ne_nil isValidUrl body hne, ?_, rfl, ?_, ?_, ?_⟩
  · unfold postApiUrl
    rw [validate_of_issues_ne_nil isValidUrl body hne]
  · rintro rfl
    rfl
  · rintro u rfl hv hlen
    have hlen2 : u.length ≤ 2048 := hlen
    simp [shortUrlSchemaIssues, hv, hlen2]
    rfl
  · rintro u rfl hv hlen
    have hlen2 : ¬ u.length ≤ 2048 := by omega
    simp [shortUrlSchemaIssues, hv, hlen2]
    rfl

/-- Witness for C4 (amended) at the input "not-a-valid-url" with a
syntax check that rejects it. -/
theorem validation_rejects_witness :
    ∃ m, validate (fun _ => false) (some (.str "not-a-valid-url")) =
        some (.apiError m 400) ∧
      postApiUrl (fun _ => false) insertUnique (fun _ => "abcd1234") 3000
          ([] : List Record) (some (.str "not-a-valid-url")) =
        (.thrown (.apiError m 400), ([] : List Record), 0) ∧
      expressRun (.thrown (.apiError m 400)) = ⟨400, .jsonError m⟩ ∧
      (some (JsonValue.str "not-a-valid-url") = none → m = requiredMessage) ∧
      (∀ u, some (JsonValue.str "not-a-valid-url") = some (.str u) →
        (fun _ => false) u = false → u.length ≤ 2048 → m = wrongUrlMessage) ∧
      (∀ u, some (JsonValue.str "not-a-valid-url") = some (.str u) →
        (fun _ => false) u = true → 2048 < u.length → m = maxLengthMessage) :=
  validation_rejects (fun _ => false) insertUnique (fun _ => "abcd1234") 3000
    ([] : List Record) (some (.str "not-a-valid-url"))
    (Or.inr (Or.inr ⟨"not-a-valid-url", rfl, Or.inl rfl⟩))

/-- Counterexample to C4 as stated: a request with the `url` field
missing is rejected with 400, but the body message is the zod default
"Required", not the claimed fixed literal "Wrong url format". -/
theorem validation_message_counterexample :
    postApiUrl (fun _ => true) insertUnique (fun _ => "abcd1234") 3000
        ([] : List Record) none =
      (.thrown (.apiError "Required" 400), ([] : List Record), 0) ∧
    expressRun (.thrown (.apiError "Required" 400)) =
      ⟨400, .jsonError "Required"⟩ ∧
    "Required" ≠ "Wrong url format" :=
  ⟨rfl, rfl, by decide⟩

/-- C9 (amended): on retry exhaustion the caller receives 500 with
body message "An unexpected error occurred, please try again"; on an
unclassified (non-collision) store error the handler re-throws the
raw store error, which is not an `ApiError` instance, so the error
handler answers 500 with body message "Internal Server Error". Both
are status 500, but only exhaustion carries the claimed message. -/
theorem write_path_failures_map_to_500 (f g : Nat → InsertResult)
    (gen : Nat → String) (url : String) (port : Nat) (e : StoreError)
    (hdup : ∀ j, j < 10 → reportsUniqueViolation (f j))
    (hg : g 0 = .err e) (hcode : e.code ≠ uniqueViolationCode) :
    expressRun (urlShorteningHandler (seqStore f) gen url port 0).1 =
      ⟨500, .jsonError "An unexpected error occurred, please try again"⟩ ∧
    expressRun (urlShorteningHandler (seqStore g) gen url port 0).1 =
      ⟨500, .jsonError "Internal Server Error"⟩ ∧
    (expressRun (urlShorteningHandler (seqStore f) gen url port 0).1).status =
      500 ∧
    (expressRun (urlShorteningHandler (seqStore g) gen url port 0).1).status =
      500 := by
  have hf := go_seq_exhaust f gen url port maxRetries 0 0
    (fun j hj => by simpa using hdup j hj)
  have hgo := go_seq_abort g gen url port e 0 maxRetries 0 0 (by decide)
    (fun j hj => absurd hj (Nat.not_lt_zero j)) (by simpa using hg) hcode
  unfold urlShorteningHandler
  rw [hf, hgo]
  exact ⟨rfl, rfl, rfl, rfl⟩

/-- Witness for C9 (amended): an always-colliding store double and a
store double failing at once with a connectivity error. -/
theorem write_path_failures_map_to_500_witness :
    expressRun (urlShorteningHandler
        (seqStore (fun _ => .err duplicateKeyError))
        (fun _ => "abcd1234") "https://www.example.com" 3000 0).1 =
      ⟨500, .jsonError "An unexpected error occurred, please try again"⟩ ∧
    expressRun (urlShorteningHandler
        (seqStore (fun _ => .err ⟨"08006", "connection failure"⟩))
        (fun _ => "abcd1234") "https://www.example.com" 3000 0).1 =
      ⟨500, .jsonError "Internal Server Error"⟩ ∧
    (expressRun (urlShorteningHandler
        (seqStore (fun _ => .err duplicateKeyError))
        (fun _ => "abcd1234") "https://www.example.com" 3000 0).1).status =
      500 ∧
    (expressRun (urlShorteningHandler
        (seqStore (fun _ => .err ⟨"08006", "connection failure"⟩))
        (fun _ => "abcd1234") "https://www.example.com" 3000 0).1).status =
      500 :=
  write_path_failures_map_to_500 (fun _ => .err duplicateKeyError)
    (fun _ => .err ⟨"08006", "connection failure"⟩)
    (fun _ => "abcd1234") "https://www.example.com" 3000
    ⟨"08006", "connection failure"⟩
    (fun _ _ => ⟨duplicateKeyError, rfl, rfl⟩) rfl (by decide)

/-- Counterexample to C9 as stated: a non-collision store error is
answered with body message "Internal Server Error", not the claimed
"An unexpected error occurred, please try again". -/
theorem storeerror_message_counterexample :
    expressRun (urlShorteningHandler
        (seqStore (fun _ => InsertResult.err ⟨"57P01", "server shutdown"⟩))
        (fun _ => "qqqqqqqq") "https://www.example.org" 3000 0).1 =
      ⟨500, .jsonError "Internal Server Error"⟩ ∧
    Body.jsonError "Internal Server Error" ≠
      Body.jsonError "An unexpected error occurred, please try again" :=
  ⟨rfl, by decide⟩

end BeWorkshop
